import Mathlib

/-!
Shallow embedding of `src/buffer.rs` (halloy buffer dispatch layer).

The file under verification is the dispatch hub `Buffer` with its `Message`
and `Event` unions.  The per-variant modules (`channel`, `server`, `query`,
`file_transfers`, `logs`, `input_view`, `scroll_view`, `empty`,
`user_context`) and the collaborator crates (`data`, `iced`) are not part of
the source tree; they are modelled as abstract state types plus a record
`Impl` of uninterpreted operations, so every theorem quantifies over all
possible behaviours of those collaborators.  Mutation through `&mut`
references is embedded as explicit state passing: an operation that mutates
`self`, `clients` and `history` returns the updated values alongside its
result.
-/

namespace Halloy

/-- `iced::Task<T>`: a description of deferred asynchronous work.  Only the
operations used by `buffer.rs` are modelled: `Task::none()` and
`Task::map`.  `none` is the empty task; `batch` stands for any non-empty
pending work, carrying the messages it will eventually deliver. -/
inductive iced.Task (α : Type) where
  | none
  | batch (msgs : List α)
deriving DecidableEq, Repr

/-- `Task::map`: functorially re-wrap the messages a task will deliver. -/
def iced.Task.map {α β : Type} (f : α → β) : iced.Task α → iced.Task β
  | .none => .none
  | .batch msgs => .batch (msgs.map f)

/-- `iced` `Element` (render tree).  Modelled as an opaque node tagged with a
number, or a node carrying a message handler; `buffer.rs` only ever builds
elements through the variant view functions and re-tags them with
`Element::map`. -/
inductive Element (α : Type) where
  | raw (tag : Nat)
  | handler (tag : Nat) (message : α)
deriving DecidableEq, Repr

/-- `Element::map`: re-wrap the messages an element can emit. -/
def Element.map {α β : Type} (f : α → β) : Element α → Element β
  | .raw tag => .raw tag
  | .handler tag message => .handler tag (f message)

/-- `data::client::Map`: opaque collaborator state (keyed connection state). -/
structure ClientMap where
  code : Nat
deriving DecidableEq, Repr

/-- `history::Manager`: opaque collaborator state (history storage). -/
structure HistoryManager where
  code : Nat
deriving DecidableEq, Repr

/-- `history::manager::Message`: opaque payload of deferred history tasks. -/
structure HistoryMessage where
  code : Nat
deriving DecidableEq, Repr

/-- `file_transfer::Manager`: opaque collaborator state. -/
structure FileTransferManager where
  code : Nat
deriving DecidableEq, Repr

/-- `data::Config`: opaque read-only configuration. -/
structure Config where
  code : Nat
deriving DecidableEq, Repr

/-- `Theme`: opaque read-only style tokens. -/
structure Theme where
  code : Nat
deriving DecidableEq, Repr

/-- `sidebar::Sidebar`: opaque read-only navigational context. -/
structure Sidebar where
  code : Nat
deriving DecidableEq, Repr

/-- Per-channel part of `buffer::Settings` (`settings.channel`). -/
structure ChannelSettings where
  code : Nat
deriving DecidableEq, Repr

/-- `data::buffer::Settings`: only the `channel` field is read by
`buffer.rs`. -/
structure Settings where
  channel : ChannelSettings
deriving DecidableEq, Repr

/-- `user_context::Event`: opaque user-interaction notification payload. -/
structure UserContextEvent where
  code : Nat
deriving DecidableEq, Repr

/-- `input_view` sub-component state (shared by Channel and Query). -/
structure InputView where
  code : Nat
deriving DecidableEq, Repr

/-- `scroll_view` sub-component state (shared by Channel, Server, Query,
Logs). -/
structure ScrollView where
  code : Nat
deriving DecidableEq, Repr

/-- `input_view::Message`: opaque. -/
structure InputViewMessage where
  code : Nat
deriving DecidableEq, Repr

/-- `scroll_view::Message`: opaque. -/
structure ScrollViewMessage where
  code : Nat
deriving DecidableEq, Repr

/-- `data::user::Nick`. -/
def Nick : Type := String

/-- `data::Server`: server identity. -/
def data.Server : Type := String

instance : DecidableEq data.Server := fun a b => String.decEq a b

/-- `data::Buffer`: the external persistence-level descriptor of a
conversational buffer (server identity, plus channel name or query target). -/
inductive data.Buffer where
  | Server (server : data.Server)
  | Channel (server : data.Server) (channel : String)
  | Query (server : data.Server) (user : Nick)

/-- `channel::Channel` state: fields read by `buffer.rs` (`buffer`, `server`,
`channel`, `input_view`, `scroll_view`); everything else in the channel
module is behind the `Impl` record. -/
structure Channel where
  buffer : data.Buffer
  server : data.Server
  channel : String
  input_view : InputView
  scroll_view : ScrollView

/-- `server::Server` state: fields read by `buffer.rs`. -/
structure Server where
  buffer : data.Buffer
  server : data.Server
  scroll_view : ScrollView

/-- `query::Query` state: fields read by `buffer.rs`. -/
structure Query where
  buffer : data.Buffer
  input_view : InputView
  scroll_view : ScrollView

/-- `file_transfers::FileTransfers` state: opaque. -/
structure FileTransfers where
  code : Nat

/-- `logs::Logs` state: `buffer.rs` reads its `scroll_view` field. -/
structure Logs where
  scroll_view : ScrollView

/-- `channel::Message`: `buffer.rs` constructs the `InputView` and
`ScrollView` cases; `Other` stands for the module's remaining,
dispatch-opaque message constructors. -/
inductive Channel.Message where
  | InputView (message : InputViewMessage)
  | ScrollView (message : ScrollViewMessage)
  | Other (code : Nat)

/-- `channel::Event`: exactly the three constructors matched exhaustively in
`Buffer::update`. -/
inductive Channel.Event where
  | UserContext (event : UserContextEvent)
  | OpenChannel (channel : String)
  | History (task : iced.Task HistoryMessage)

/-- `server::Message`: `buffer.rs` constructs the `ScrollView` case; `Other`
stands for the rest. -/
inductive Server.Message where
  | ScrollView (message : ScrollViewMessage)
  | Other (code : Nat)

/-- `server::Event`: exactly the three constructors matched exhaustively in
`Buffer::update`. -/
inductive Server.Event where
  | UserContext (event : UserContextEvent)
  | OpenChannel (channel : String)
  | History (task : iced.Task HistoryMessage)

/-- `query::Message`: `buffer.rs` constructs the `InputView` and `ScrollView`
cases; `Other` stands for the rest. -/
inductive Query.Message where
  | InputView (message : InputViewMessage)
  | ScrollView (message : ScrollViewMessage)
  | Other (code : Nat)

/-- `query::Event`: exactly the three constructors matched exhaustively in
`Buffer::update`. -/
inductive Query.Event where
  | UserContext (event : UserContextEvent)
  | OpenChannel (channel : String)
  | History (task : iced.Task HistoryMessage)

/-- `file_transfers::Message`: fully opaque to `buffer.rs`. -/
structure FileTransfers.Message where
  code : Nat

/-- `logs::Message`: `buffer.rs` constructs the `ScrollView` case; `Other`
stands for the rest. -/
inductive Logs.Message where
  | ScrollView (message : ScrollViewMessage)
  | Other (code : Nat)

/-- `pub enum Buffer` (src/buffer.rs lines 26-33). -/
inductive Buffer where
  | Empty
  | Channel (state : Channel)
  | Server (state : Server)
  | Query (state : Query)
  | FileTransfers (state : FileTransfers)
  | Logs (state : Logs)

/-- `pub enum Message` (src/buffer.rs lines 36-42). -/
inductive Message where
  | Channel (message : Channel.Message)
  | Server (message : Server.Message)
  | Query (message : Query.Message)
  | FileTransfers (message : FileTransfers.Message)
  | Log (message : Logs.Message)

/-- `pub enum Event` (src/buffer.rs lines 44-48). -/
inductive Event where
  | UserContext (event : UserContextEvent)
  | OpenChannel (channel : String)
  | History (task : iced.Task HistoryMessage)

/-- The uninterpreted operations of the out-of-tree variant modules and
sub-components, exactly as `buffer.rs` calls them.  A `&mut` receiver or
argument becomes an extra returned component. -/
structure Impl where
  channelUpdate : Channel → Channel.Message → ClientMap → HistoryManager → Config →
    Channel × ClientMap × HistoryManager × iced.Task Channel.Message × Option Channel.Event
  serverUpdate : Server → Server.Message → ClientMap → HistoryManager → Config →
    Server × ClientMap × HistoryManager × iced.Task Server.Message × Option Server.Event
  queryUpdate : Query → Query.Message → ClientMap → HistoryManager → Config →
    Query × ClientMap × HistoryManager × iced.Task Query.Message × Option Query.Event
  fileTransfersUpdate : FileTransfers → FileTransfers.Message → FileTransferManager → Config →
    FileTransfers × FileTransferManager × iced.Task FileTransfers.Message
  emptyView : Config → Sidebar → Element Message
  channelView : Channel → ClientMap → HistoryManager → ChannelSettings → Config → Theme → Bool →
    Element Channel.Message
  serverView : Server → ClientMap → HistoryManager → Config → Theme → Bool →
    Element Server.Message
  queryView : Query → ClientMap → HistoryManager → Config → Theme → Bool →
    Element Query.Message
  fileTransfersView : FileTransfers → FileTransferManager → Element FileTransfers.Message
  logsView : Logs → HistoryManager → Config → Theme → Element Logs.Message
  channelFocus : Channel → iced.Task Channel.Message
  serverFocus : Server → iced.Task Server.Message
  queryFocus : Query → iced.Task Query.Message
  channelReset : Channel → Channel
  serverReset : Server → Server
  queryReset : Query → Query
  insertUser : InputView → Nick → data.Buffer → HistoryManager →
    InputView × HistoryManager × iced.Task InputViewMessage
  scrollToStart : ScrollView → ScrollView × iced.Task ScrollViewMessage
  scrollToEnd : ScrollView → ScrollView × iced.Task ScrollViewMessage

/-- `Buffer::empty` (src/buffer.rs lines 51-53). -/
def Buffer.empty : Buffer := .Empty

/-- `Buffer::data` (src/buffer.rs lines 55-64). -/
def Buffer.data : Buffer → Option data.Buffer
  | .Empty => none
  | .Channel state => some state.buffer
  | .Server state => some state.buffer
  | .Query state => some state.buffer
  | .FileTransfers _ => none
  | .Logs _ => none

/-- `Buffer::update` (src/buffer.rs lines 66-115).  `&mut self`, `&mut
clients`, `&mut history` and `&mut file_transfers` become the first four
components of the result; the returned pair `(Task<Message>,
Option<Event>)` is the last two. -/
def Buffer.update (impl : Impl) (b : Buffer) (message : Message)
    (clients : ClientMap) (history : HistoryManager)
    (file_transfers : FileTransferManager) (config : Config) :
    Buffer × ClientMap × HistoryManager × FileTransferManager ×
      iced.Task Message × Option Event :=
  match b, message with
  | .Channel state, .Channel message =>
    match impl.channelUpdate state message clients history config with
    | (state, clients, history, command, event) =>
      let event := event.map fun event =>
        match event with
        | .UserContext event => Event.UserContext event
        | .OpenChannel channel => Event.OpenChannel channel
        | .History task => Event.History task
      (.Channel state, clients, history, file_transfers,
        command.map Message.Channel, event)
  | .Server state, .Server message =>
    match impl.serverUpdate state message clients history config with
    | (state, clients, history, command, event) =>
      let event := event.map fun event =>
        match event with
        | .UserContext event => Event.UserContext event
        | .OpenChannel channel => Event.OpenChannel channel
        | .History task => Event.History task
      (.Server state, clients, history, file_transfers,
        command.map Message.Server, event)
  | .Query state, .Query message =>
    match impl.queryUpdate state message clients history config with
    | (state, clients, history, command, event) =>
      let event := event.map fun event =>
        match event with
        | .UserContext event => Event.UserContext event
        | .OpenChannel channel => Event.OpenChannel channel
        | .History task => Event.History task
      (.Query state, clients, history, file_transfers,
        command.map Message.Query, event)
  | .FileTransfers state, .FileTransfers message =>
    match impl.fileTransfersUpdate state message file_transfers config with
    | (state, file_transfers, command) =>
      (.FileTransfers state, clients, history, file_transfers,
        command.map Message.FileTransfers, none)
  | b, _ => (b, clients, history, file_transfers, iced.Task.none, none)

/-- `Buffer::view` (src/buffer.rs lines 117-152). -/
def Buffer.view (impl : Impl) (b : Buffer) (clients : ClientMap)
    (file_transfers : FileTransferManager) (history : HistoryManager)
    (settings : Settings) (config : Config) (theme : Theme)
    (is_focused : Bool) (sidebar : Sidebar) : Element Message :=
  match b with
  | .Empty => impl.emptyView config sidebar
  | .Channel state =>
    (impl.channelView state clients history settings.channel config theme
      is_focused).map Message.Channel
  | .Server state =>
    (impl.serverView state clients history config theme is_focused).map Message.Server
  | .Query state =>
    (impl.queryView state clients history config theme is_focused).map Message.Query
  | .FileTransfers state =>
    (impl.fileTransfersView state file_transfers).map Message.FileTransfers
  | .Logs state =>
    (impl.logsView state history config theme).map Message.Log

/-- `Buffer::get_server` (src/buffer.rs lines 156-162). -/
def Buffer.get_server (b : Buffer) (server : data.Server) : Option Halloy.Server :=
  match b with
  | .Server state => if state.server = server then some state else none
  | _ => none

/-- `Buffer::get_channel` (src/buffer.rs lines 166-172). -/
def Buffer.get_channel (b : Buffer) (server : data.Server)
    (channel : String) : Option Halloy.Channel :=
  match b with
  | .Channel state =>
    if state.server = server ∧ state.channel = channel then some state else none
  | _ => none

/-- `Buffer::focus` (src/buffer.rs lines 174-181).  `&self`: no state is
returned because none can change. -/
def Buffer.focus (impl : Impl) (b : Buffer) : iced.Task Message :=
  match b with
  | .Empty | .FileTransfers _ | .Logs _ => iced.Task.none
  | .Channel state => (impl.channelFocus state).map Message.Channel
  | .Server state => (impl.serverFocus state).map Message.Server
  | .Query state => (impl.queryFocus state).map Message.Query

/-- `Buffer::reset` (src/buffer.rs lines 183-190).  `&mut self` becomes the
returned Buffer. -/
def Buffer.reset (impl : Impl) (b : Buffer) : Buffer :=
  match b with
  | .Empty | .FileTransfers _ | .Logs _ => b
  | .Channel state => .Channel (impl.channelReset state)
  | .Server state => .Server (impl.serverReset state)
  | .Query state => .Query (impl.queryReset state)

/-- `Buffer::insert_user_to_input` (src/buffer.rs lines 192-214).  The
source first clones `self.data()`; only with `Some(buffer)` does the inner
variant match run, and only Channel/Query delegate to
`input_view.insert_user`, wrapping the task in
`Message::Channel(channel::Message::InputView(..))` resp.
`Message::Query(query::Message::InputView(..))`. -/
def Buffer.insert_user_to_input (impl : Impl) (b : Buffer) (nick : Nick)
    (history : HistoryManager) : Buffer × HistoryManager × iced.Task Message :=
  match b.data with
  | some buffer =>
    match b with
    | .Empty | .Server _ | .FileTransfers _ | .Logs _ =>
      (b, history, iced.Task.none)
    | .Channel state =>
      match impl.insertUser state.input_view nick buffer history with
      | (input_view, history, task) =>
        (.Channel { state with input_view := input_view }, history,
          task.map fun message => Message.Channel (Channel.Message.InputView message))
    | .Query state =>
      match impl.insertUser state.input_view nick buffer history with
      | (input_view, history, task) =>
        (.Query { state with input_view := input_view }, history,
          task.map fun message => Message.Query (Query.Message.InputView message))
  | none => (b, history, iced.Task.none)

/-- `Buffer::scroll_to_start` (src/buffer.rs lines 216-236). -/
def Buffer.scroll_to_start (impl : Impl) (b : Buffer) :
    Buffer × iced.Task Message :=
  match b with
  | .Empty | .FileTransfers _ => (b, iced.Task.none)
  | .Channel state =>
    match impl.scrollToStart state.scroll_view with
    | (scroll_view, task) =>
      (.Channel { state with scroll_view := scroll_view },
        task.map fun message => Message.Channel (Channel.Message.ScrollView message))
  | .Server state =>
    match impl.scrollToStart state.scroll_view with
    | (scroll_view, task) =>
      (.Server { state with scroll_view := scroll_view },
        task.map fun message => Message.Server (Server.Message.ScrollView message))
  | .Query state =>
    match impl.scrollToStart state.scroll_view with
    | (scroll_view, task) =>
      (.Query { state with scroll_view := scroll_view },
        task.map fun message => Message.Query (Query.Message.ScrollView message))
  | .Logs state =>
    match impl.scrollToStart state.scroll_view with
    | (scroll_view, task) =>
      (.Logs { state with scroll_view := scroll_view },
        task.map fun message => Message.Log (Logs.Message.ScrollView message))

/-- `Buffer::scroll_to_end` (src/buffer.rs lines 238-258). -/
def Buffer.scroll_to_end (impl : Impl) (b : Buffer) :
    Buffer × iced.Task Message :=
  match b with
  | .Empty | .FileTransfers _ => (b, iced.Task.none)
  | .Channel state =>
    match impl.scrollToEnd state.scroll_view with
    | (scroll_view, task) =>
      (.Channel { state with scroll_view := scroll_view },
        task.map fun message => Message.Channel (Channel.Message.ScrollView message))
  | .Server state =>
    match impl.scrollToEnd state.scroll_view with
    | (scroll_view, task) =>
      (.Server { state with scroll_view := scroll_view },
        task.map fun message => Message.Server (Server.Message.ScrollView message))
  | .Query state =>
    match impl.scrollToEnd state.scroll_view with
    | (scroll_view, task) =>
      (.Query { state with scroll_view := scroll_view },
        task.map fun message => Message.Query (Query.Message.ScrollView message))
  | .Logs state =>
    match impl.scrollToEnd state.scroll_view with
    | (scroll_view, task) =>
      (.Logs { state with scroll_view := scroll_view },
        task.map fun message => Message.Log (Logs.Message.ScrollView message))

/-- Modelled from the spec: `Server::new(server)` lives in the server module,
which is not in the source tree.  Per spec section 4.1 the conversion
"constructs the corresponding fresh variant state"; a fresh Server state
carries the descriptor for its server and fresh sub-state. -/
def Server.new (server : data.Server) : Server :=
  { buffer := data.Buffer.Server server
    server := server
    scroll_view := ⟨0⟩ }

/-- Modelled from the spec: `Channel::new(server, channel)` lives in the
channel module, which is not in the source tree.  Per spec section 4.1 the
conversion "constructs the corresponding fresh variant state" whose
descriptor equals (server, channel); sub-states start fresh. -/
def Channel.new (server : data.Server) (channel : String) : Channel :=
  { buffer := data.Buffer.Channel server channel
    server := server
    channel := channel
    input_view := ⟨0⟩
    scroll_view := ⟨0⟩ }

/-- Modelled from the spec: `Query::new(server, user)` lives in the query
module, which is not in the source tree.  Per spec section 4.1 the conversion
"constructs the corresponding fresh variant state" whose descriptor equals
(server, user); sub-states start fresh. -/
def Query.new (server : data.Server) (user : Nick) : Query :=
  { buffer := data.Buffer.Query server user
    input_view := ⟨0⟩
    scroll_view := ⟨0⟩ }

/-- `impl From<data::Buffer> for Buffer` (src/buffer.rs lines 261-269). -/
def Buffer.fromData : data.Buffer → Buffer
  | .Server server => .Server (Server.new server)
  | .Channel server channel => .Channel (Channel.new server channel)
  | .Query server user => .Query (Query.new server user)

/-- Spec-side notion used by the mismatch claims: does the message's variant
tag correspond to the buffer's active variant?  (`Message::Log` corresponds
to `Buffer::Logs`; `Empty` accepts no messages.) -/
def variantMatches : Buffer → Message → Bool
  | .Channel _, .Channel _ => true
  | .Server _, .Server _ => true
  | .Query _, .Query _ => true
  | .FileTransfers _, .FileTransfers _ => true
  | .Logs _, .Log _ => true
  | _, _ => false

/-- A concrete instantiation of the out-of-tree operations, used to evaluate
the embedding at specific inputs. -/
def implZero : Impl :=
  { channelUpdate := fun state _ clients history _ =>
      (state, clients, history, iced.Task.none, none)
    serverUpdate := fun state _ clients history _ =>
      (state, clients, history, iced.Task.none, none)
    queryUpdate := fun state _ clients history _ =>
      (state, clients, history, iced.Task.none, none)
    fileTransfersUpdate := fun state _ file_transfers _ =>
      (state, file_transfers, iced.Task.none)
    emptyView := fun _ _ => .raw 0
    channelView := fun _ _ _ _ _ _ _ => .raw 1
    serverView := fun _ _ _ _ _ _ => .raw 2
    queryView := fun _ _ _ _ _ _ => .raw 3
    fileTransfersView := fun _ _ => .raw 4
    logsView := fun _ _ _ _ => .raw 5
    channelFocus := fun _ => iced.Task.none
    serverFocus := fun _ => iced.Task.none
    queryFocus := fun _ => iced.Task.none
    channelReset := id
    serverReset := id
    queryReset := id
    insertUser := fun input_view _ _ history => (input_view, history, iced.Task.none)
    scrollToStart := fun scroll_view => (scroll_view, iced.Task.none)
    scrollToEnd := fun scroll_view => (scroll_view, iced.Task.none) }

/-- Claim C1 (code-bug evidence): a `Logs` buffer receiving a matching
`Message::Log` is NOT delegated to the Logs variant's update.
`Buffer::update` has no `(Buffer::Logs, Message::Log)` arm, so for every
possible implementation of the out-of-tree modules the pair falls into the
catch-all: the state is unchanged, the task is empty and no event fires —
whereas the claim (and the spec's dispatch rule) requires exactly one
delegation with the variant's task and event surfaced.  The code itself
emits `Message::Log` tasks from `scroll_to_start`/`scroll_to_end` on Logs,
which this update then silently discards. -/
theorem update_logs_matching_dropped (impl : Impl) (state : Logs)
    (message : Logs.Message) (clients : ClientMap) (history : HistoryManager)
    (file_transfers : FileTransferManager) (config : Config) :
    Buffer.update impl (Buffer.Logs state) (Message.Log message) clients
      history file_transfers config =
      (Buffer.Logs state, clients, history, file_transfers,
        iced.Task.none, none) := rfl

/-- Claim C2: when the message's variant does not correspond to the active
variant, `Buffer::update` is a no-op for every implementation of the
variant modules: the buffer, the client map, the history manager and the
file-transfer manager are returned unchanged, the task is the empty task
and no event is produced. -/
theorem update_mismatch_noop (impl : Impl) (b : Buffer) (message : Message)
    (clients : ClientMap) (history : HistoryManager)
    (file_transfers : FileTransferManager) (config : Config)
    (h : variantMatches b message = false) :
    Buffer.update impl b message clients history file_transfers config =
      (b, clients, history, file_transfers, iced.Task.none, none) := by
  cases b <;> cases message <;> first
    | rfl
    | simp [variantMatches] at h

/-- Witness for C2: an `Empty` buffer receiving a `Message::Log` is left
unchanged with an empty task and no event. -/
theorem update_mismatch_noop_witness :
    Buffer.update implZero Buffer.Empty
      (Message.Log (Logs.Message.ScrollView ⟨0⟩)) ⟨0⟩ ⟨1⟩ ⟨2⟩ ⟨3⟩ =
      (Buffer.Empty, ⟨0⟩, ⟨1⟩, ⟨2⟩, iced.Task.none, none) :=
  update_mismatch_noop implZero Buffer.Empty
    (Message.Log (Logs.Message.ScrollView ⟨0⟩)) ⟨0⟩ ⟨1⟩ ⟨2⟩ ⟨3⟩ rfl

/-- Claim C3: `data()` returns `Some` of the underlying descriptor exactly
for the Channel, Server and Query variants, and `None` exactly for Empty,
FileTransfers and Logs, on every constructed instance. -/
theorem data_characterization :
    Buffer.data Buffer.Empty = none ∧
    (∀ state : Channel, Buffer.data (Buffer.Channel state) = some state.buffer) ∧
    (∀ state : Server, Buffer.data (Buffer.Server state) = some state.buffer) ∧
    (∀ state : Query, Buffer.data (Buffer.Query state) = some state.buffer) ∧
    (∀ state : FileTransfers, Buffer.data (Buffer.FileTransfers state) = none) ∧
    (∀ state : Logs, Buffer.data (Buffer.Logs state) = none) :=
  ⟨rfl, fun _ => rfl, fun _ => rfl, fun _ => rfl, fun _ => rfl, fun _ => rfl⟩

/-- Claim C4: converting an external descriptor yields the matching variant
and round-trips through `data()`: a server descriptor gives a Server buffer
with that descriptor, (server, channel) gives a Channel buffer with that
descriptor, and (server, user) gives a Query buffer with that descriptor. -/
theorem fromData_roundtrip :
    (∀ server : data.Server,
      Buffer.fromData (data.Buffer.Server server) =
          Buffer.Server (Server.new server) ∧
        (Buffer.fromData (data.Buffer.Server server)).data =
          some (data.Buffer.Server server)) ∧
    (∀ (server : data.Server) (channel : String),
      Buffer.fromData (data.Buffer.Channel server channel) =
          Buffer.Channel (Channel.new server channel) ∧
        (Buffer.fromData (data.Buffer.Channel server channel)).data =
          some (data.Buffer.Channel server channel)) ∧
    (∀ (server : data.Server) (user : Nick),
      Buffer.fromData (data.Buffer.Query server user) =
          Buffer.Query (Query.new server user) ∧
        (Buffer.fromData (data.Buffer.Query server user)).data =
          some (data.Buffer.Query server user)) :=
  ⟨fun _ => ⟨rfl, rfl⟩, fun _ _ => ⟨rfl, rfl⟩, fun _ _ => ⟨rfl, rfl⟩⟩

/-- Claim C5: `insert_user_to_input` on a Channel (resp. Query) buffer
delegates to the shared input view and wraps its task in
`Message::Channel(channel::Message::InputView(..))` (resp.
`Message::Query(query::Message::InputView(..))`); on Empty, Server,
FileTransfers and Logs it returns the empty task and changes nothing, for
every nick and every history-manager state. -/
theorem insert_user_to_input_characterization (impl : Impl) (nick : Nick)
    (history : HistoryManager) :
    (∀ state : Channel,
      Buffer.insert_user_to_input impl (Buffer.Channel state) nick history =
        (Buffer.Channel { state with
            input_view := (impl.insertUser state.input_view nick state.buffer history).1 },
          (impl.insertUser state.input_view nick state.buffer history).2.1,
          (impl.insertUser state.input_view nick state.buffer history).2.2.map
            fun message => Message.Channel (Channel.Message.InputView message))) ∧
    (∀ state : Query,
      Buffer.insert_user_to_input impl (Buffer.Query state) nick history =
        (Buffer.Query { state with
            input_view := (impl.insertUser state.input_view nick state.buffer history).1 },
          (impl.insertUser state.input_view nick state.buffer history).2.1,
          (impl.insertUser state.input_view nick state.buffer history).2.2.map
            fun message => Message.Query (Query.Message.InputView message))) ∧
    Buffer.insert_user_to_input impl Buffer.Empty nick history =
      (Buffer.Empty, history, iced.Task.none) ∧
    (∀ state : Server,
      Buffer.insert_user_to_input impl (Buffer.Server state) nick history =
        (Buffer.Server state, history, iced.Task.none)) ∧
    (∀ state : FileTransfers,
      Buffer.insert_user_to_input impl (Buffer.FileTransfers state) nick history =
        (Buffer.FileTransfers state, history, iced.Task.none)) ∧
    (∀ state : Logs,
      Buffer.insert_user_to_input impl (Buffer.Logs state) nick history =
        (Buffer.Logs state, history, iced.Task.none)) :=
  ⟨fun _ => rfl, fun _ => rfl, rfl, fun _ => rfl, fun _ => rfl, fun _ => rfl⟩

/-- Claim C6: `focus`, `scroll_to_start` and `scroll_to_end` return the
empty task and leave the state unchanged on Empty; `focus` is additionally
a no-op on FileTransfers and Logs; the scroll operations are additionally
no-ops on FileTransfers only — on Logs they do delegate to the scroll
sub-component, wrapping its task in
`Message::Log(logs::Message::ScrollView(..))`. -/
theorem focus_scroll_capability (impl : Impl) :
    Buffer.focus impl Buffer.Empty = iced.Task.none ∧
    (∀ state : FileTransfers,
      Buffer.focus impl (Buffer.FileTransfers state) = iced.Task.none) ∧
    (∀ state : Logs, Buffer.focus impl (Buffer.Logs state) = iced.Task.none) ∧
    Buffer.scroll_to_start impl Buffer.Empty = (Buffer.Empty, iced.Task.none) ∧
    Buffer.scroll_to_end impl Buffer.Empty = (Buffer.Empty, iced.Task.none) ∧
    (∀ state : FileTransfers,
      Buffer.scroll_to_start impl (Buffer.FileTransfers state) =
        (Buffer.FileTransfers state, iced.Task.none)) ∧
    (∀ state : FileTransfers,
      Buffer.scroll_to_end impl (Buffer.FileTransfers state) =
        (Buffer.FileTransfers state, iced.Task.none)) ∧
    (∀ state : Logs,
      Buffer.scroll_to_start impl (Buffer.Logs state) =
        (Buffer.Logs { state with
            scroll_view := (impl.scrollToStart state.scroll_view).1 },
          (impl.scrollToStart state.scroll_view).2.map
            fun message => Message.Log (Logs.Message.ScrollView message))) ∧
    (∀ state : Logs,
      Buffer.scroll_to_end impl (Buffer.Logs state) =
        (Buffer.Logs { state with
            scroll_view := (impl.scrollToEnd state.scroll_view).1 },
          (impl.scrollToEnd state.scroll_view).2.map
            fun message => Message.Log (Logs.Message.ScrollView message))) :=
  ⟨rfl, fun _ => rfl, fun _ => rfl, rfl, rfl, fun _ => rfl, fun _ => rfl,
    fun _ => rfl, fun _ => rfl⟩

/-- Claim C7: on a FileTransfers or Logs buffer, `Buffer::update` never
produces an event, whatever the message and whatever the out-of-tree
modules do: the matching FileTransfers arm hard-codes `None` and every
other pairing falls into the catch-all. -/
theorem update_no_event_on_utility_variants (impl : Impl) (message : Message)
    (clients : ClientMap) (history : HistoryManager)
    (file_transfers : FileTransferManager) (config : Config) :
    (∀ state : FileTransfers,
      (Buffer.update impl (Buffer.FileTransfers state) message clients
        history file_transfers config).2.2.2.2.2 = none) ∧
    (∀ state : Logs,
      (Buffer.update impl (Buffer.Logs state) message clients
        history file_transfers config).2.2.2.2.2 = none) := by
  constructor <;> intro state <;> cases message <;> rfl

/-- Claim C8: every operation of this layer is a total function over the
closed union types: on arbitrary inputs each of `update`, `view`, `focus`,
`reset`, `insert_user_to_input`, `scroll_to_start`, `scroll_to_end`,
`data` and the descriptor conversion is defined and yields a result.  In
this embedding a panic or partial match would have forced an
`Option`/`Except` codomain; none did — every match in the source is
exhaustive over the closed unions. -/
theorem operations_total (impl : Impl) (b : Buffer) (message : Message)
    (clients : ClientMap) (history : HistoryManager)
    (file_transfers : FileTransferManager) (config : Config)
    (settings : Settings) (theme : Theme) ( is_focused : Bool)
    (sidebar : Sidebar) (nick : Nick) (d : data.Buffer) :
    (∃ r, Buffer.update impl b message clients history file_transfers config = r) ∧
    (∃ r, Buffer.view impl b clients file_transfers history settings config
      theme is_focused sidebar = r) ∧
    (∃ r, Buffer.focus impl b = r) ∧
    (∃ r, Buffer.reset impl b = r) ∧
    (∃ r, Buffer.insert_user_to_input impl b nick history = r) ∧
    (∃ r, Buffer.scroll_to_start impl b = r) ∧
    (∃ r, Buffer.scroll_to_end impl b = r) ∧
    (∃ r, Buffer.data b = r) ∧
    (∃ r, Buffer.fromData d = r) :=
  ⟨⟨_, rfl⟩, ⟨_, rfl⟩, ⟨_, rfl⟩, ⟨_, rfl⟩, ⟨_, rfl⟩, ⟨_, rfl⟩, ⟨_, rfl⟩,
    ⟨_, rfl⟩, ⟨_, rfl⟩⟩

/-- Claim C9: `view` is a pure function of the current state and the
read-only inputs: it returns only a render tree (no state component, so
neither the buffer nor any collaborator can change), two calls with equal
state and inputs yield equal trees, and each variant dispatches to its view
function with exactly the relevant inputs. -/
theorem view_pure (impl : Impl) (clients : ClientMap)
    (file_transfers : FileTransferManager) (history : HistoryManager)
    (settings : Settings) (config : Config) (theme : Theme)
    ( is_focused : Bool) (sidebar : Sidebar) :
    (∀ b : Buffer,
      Buffer.view impl b clients file_transfers history settings config
          theme is_focused sidebar =
        Buffer.view impl b clients file_transfers history settings config
          theme is_focused sidebar) ∧
    Buffer.view impl Buffer.Empty clients file_transfers history settings
        config theme is_focused sidebar = impl.emptyView config sidebar ∧
    (∀ state : Channel,
      Buffer.view impl (Buffer.Channel state) clients file_transfers history
          settings config theme is_focused sidebar =
        (impl.channelView state clients history settings.channel config theme
          is_focused).map Message.Channel) ∧
    (∀ state : Server,
      Buffer.view impl (Buffer.Server state) clients file_transfers history
          settings config theme is_focused sidebar =
        (impl.serverView state clients history config theme is_focused).map
          Message.Server) ∧
    (∀ state : Query,
      Buffer.view impl (Buffer.Query state) clients file_transfers history
          settings config theme is_focused sidebar =
        (impl.queryView state clients history config theme is_focused).map
          Message.Query) ∧
    (∀ state : FileTransfers,
      Buffer.view impl (Buffer.FileTransfers state) clients file_transfers
          history settings config theme is_focused sidebar =
        (impl.fileTransfersView state file_transfers).map
          Message.FileTransfers) ∧
    (∀ state : Logs,
      Buffer.view impl (Buffer.Logs state) clients file_transfers history
          settings config theme is_focused sidebar =
        (impl.logsView state history config theme).map Message.Log) :=
  ⟨fun _ => rfl, rfl, fun _ => rfl, fun _ => rfl, fun _ => rfl, fun _ => rfl,
    fun _ => rfl⟩

/-- Claim C10: on Channel and Query buffers `data()` is always `Some`, so
the missing-descriptor fallback of `insert_user_to_input` is unreachable
there: for every implementation, nick and history state those variants
always delegate to the input view (never return through the `None`
branch). -/
theorem insert_user_channel_query_delegates (impl : Impl) (nick : Nick)
    (history : HistoryManager) :
    (∀ state : Channel,
      (Buffer.Channel state).data = some state.buffer ∧
      Buffer.insert_user_to_input impl (Buffer.Channel state) nick history =
        (Buffer.Channel { state with
            input_view := (impl.insertUser state.input_view nick state.buffer history).1 },
          (impl.insertUser state.input_view nick state.buffer history).2.1,
          (impl.insertUser state.input_view nick state.buffer history).2.2.map
            fun message => Message.Channel (Channel.Message.InputView message))) ∧
    (∀ state : Query,
      (Buffer.Query state).data = some state.buffer ∧
      Buffer.insert_user_to_input impl (Buffer.Query state) nick history =
        (Buffer.Query { state with
            input_view := (impl.insertUser state.input_view nick state.buffer history).1 },
          (impl.insertUser state.input_view nick state.buffer history).2.1,
          (impl.insertUser state.input_view nick state.buffer history).2.2.map
            fun message => Message.Query (Query.Message.InputView message))) :=
  ⟨fun _ => ⟨rfl, rfl⟩, fun _ => ⟨rfl, rfl⟩⟩

end Halloy
